import Mathlib

/-!
Verification development for the extraction-rule compiler and multi-backend
script synthesizer of the Python Scraper Studio repository.

The definitions below are shallow embeddings of:
  * the selector compilers `convertToCssSelector` (src/services/codeGenerator.ts,
    lines 436-464) and `convertToSelector` (src/App.tsx, lines 1329-1354);
  * the selector tester `handleTest` (src/App.tsx, lines 1418-1470), restricted
    to the value it stores for the descriptor under test;
  * the two link harvesters `handleFindAllLinksPreview` (src/App.tsx, lines
    1364-1386) and `handleFindLinksInContainerPreview` (src/App.tsx, lines
    1388-1416);
  * the script synthesizer `generateBeautifulSoupCode` and its helpers
    (src/services/codeGenerator.ts, lines 466-817).

The browser-supplied sample document is modelled by a small DOM tree together
with a CSS engine for the compound-selector fragment that the compilers emit
(type, `#id`, `.class`, `[key="value"]`, `[key]`).  JavaScript exceptions are
modelled with `Except`: a `.error` value is a raised exception, and the
embeddings of `try`/`catch` blocks dispatch on it exactly where the source
catches.
-/

namespace PSS

set_option maxRecDepth 100000

/-! ### JavaScript string primitives used by the source -/

/-- Whitespace class of the JavaScript regexes `\s` used by the source
(space, tab, newline, carriage return, vertical tab, form feed). -/
def jsWS (c : Char) : Bool :=
  c == ' ' || c == '\t' || c == '\n' || c == '\r' || c == '\x0b' || c == '\x0c'

/-- Character class `[\w-]` of the attribute regex: ASCII letters, digits,
underscore and hyphen. -/
def isWordChar (c : Char) : Bool :=
  c.isAlpha || c.isDigit || c == '_' || c == '-'

theorem length_dropWhile_le (p : Char → Bool) (l : List Char) :
    (l.dropWhile p).length ≤ l.length := by
  induction l with
  | nil => simp [List.dropWhile]
  | cons c cs ih =>
    simp only [List.dropWhile]
    split
    · exact Nat.le_succ_of_le ih
    · exact Nat.le_refl _

/-- ASCII lowercasing as JavaScript `toLowerCase` performs it on the
attribute keys appearing here. -/
def jsToLower (s : String) : String :=
  (s.data.map fun c =>
    if c.toNat >= 65 && c.toNat <= 90 then Char.ofNat (c.toNat + 32) else c).asString

/-- JavaScript `String.trim`: strip whitespace from both ends. -/
def jsTrim (s : String) : String :=
  (((s.data.dropWhile jsWS).reverse.dropWhile jsWS).reverse).asString

/-- Splitting on the regex `/\s+/` as JavaScript `String.split` does: maximal
whitespace runs separate the fields, and leading or trailing runs contribute
empty fields.  The boolean is true while a separator run is being consumed. -/
def jsSplitWSGo : Bool → List Char → List Char → List (List Char)
  | false, [], acc => [acc.reverse]
  | true, [], _ => [[]]
  | false, c :: cs, acc =>
    if jsWS c then acc.reverse :: jsSplitWSGo true cs []
    else jsSplitWSGo false cs (c :: acc)
  | true, c :: cs, acc =>
    if jsWS c then jsSplitWSGo true cs acc
    else jsSplitWSGo false cs [c]

/-- JavaScript `value.split(/\s+/)` on a Lean string. -/
def jsSplitWS (s : String) : List String :=
  (jsSplitWSGo false s.data []).map List.asString

/-- JavaScript `Array.join(sep)`. -/
def jsJoin (sep : String) : List String → String
  | [] => ""
  | [x] => x
  | x :: x2 :: xs => x ++ sep ++ jsJoin sep (x2 :: xs)

/-- JavaScript `value.replace(/"/g, '\\"')`: escape every double quote with a
backslash. -/
def escQuotes (s : String) : String :=
  (s.data.flatMap fun c => if c == '"' then ['\\', '"'] else [c]).asString

/-- Prefix test on character lists (used by the substring machinery). -/
def isPrefixList : List Char → List Char → Bool
  | [], _ => true
  | _ :: _, [] => false
  | a :: as, b :: bs => a == b && isPrefixList as bs

/-- Substring occurrence test on character lists. -/
def listHasSub (pat : List Char) : List Char → Bool
  | [] => pat.isEmpty
  | s@(_ :: rest) => isPrefixList pat s || listHasSub pat rest

/-- Substring occurrence test on strings. -/
def containsSub (s pat : String) : Bool :=
  listHasSub pat.data s.data

/-- JavaScript `s.replace(pat, rep)` with a plain-string pattern: replace the
first occurrence only. -/
def replaceFirstList (pat rep : List Char) : List Char → List Char
  | [] => if pat.isEmpty then rep else []
  | s@(c :: cs) =>
    if isPrefixList pat s then rep ++ s.drop pat.length
    else c :: replaceFirstList pat rep cs

/-- JavaScript `s.replace(pat, rep)` on Lean strings. -/
def replaceFirst (s pat rep : String) : String :=
  (replaceFirstList pat.data rep.data s.data).asString

/-- State of the whitespace-collapsing scan: scanning normally, holding one
pending whitespace character, or inside a run whose space was emitted. -/
inductive WSState where
  | norm
  | pend (w : Char)
  | run

/-- JavaScript `.replace(/\s\s+/g, ' ')`: each whitespace run of length at
least two collapses to a single space; a lone whitespace character is kept. -/
def collapseWSGo : WSState → List Char → List Char
  | .norm, [] => []
  | .pend w, [] => [w]
  | .run, [] => []
  | .norm, c :: cs => if jsWS c then collapseWSGo (.pend c) cs else c :: collapseWSGo .norm cs
  | .pend w, c :: cs =>
    if jsWS c then ' ' :: collapseWSGo .run cs else w :: c :: collapseWSGo .norm cs
  | .run, c :: cs => if jsWS c then collapseWSGo .run cs else c :: collapseWSGo .norm cs

/-- Collapse-whitespace on strings, as in `.trim().replace(/\s\s+/g, ' ')`. -/
def collapseWSStr (s : String) : String :=
  (collapseWSGo .norm s.data).asString

/-! ### The attrs tokenizer

The source scans `attrs` with the global regex
`([\w-]+)\s*=\s*(?:"([^"]*)"|'([^']*)'|([^\s,]+))` (codeGenerator.ts line 440,
App.tsx line 1332).  `matchAttrAt` decides whether a match starts at the head
of the list and returns (key, value, rest-after-match); `scanAttrsAux` replays
`exec`'s forward scan, advancing one character when no match starts here. -/

/-- Bare-value alternative `([^\s,]+)` of the attrs regex. -/
def bareValue (key : List Char) (r : List Char) :
    Option (List Char × List Char × List Char) :=
  let v := r.takeWhile fun c => !jsWS c && c != ','
  if v.isEmpty then none else some (key, v, r.dropWhile fun c => !jsWS c && c != ',')

/-- Attempt to match the attrs regex at the head of the list. -/
def matchAttrAt (s : List Char) : Option (List Char × List Char × List Char) :=
  let key := s.takeWhile isWordChar
  if key.isEmpty then none
  else
    match (s.dropWhile isWordChar).dropWhile jsWS with
    | '=' :: r2 =>
      let r3 := r2.dropWhile jsWS
      match r3 with
      | '"' :: r4 =>
        match r4.dropWhile (fun c => c != '"') with
        | _ :: r5 => some (key, r4.takeWhile (fun c => c != '"'), r5)
        | [] => bareValue key r3
      | '\'' :: r4 =>
        match r4.dropWhile (fun c => c != '\'') with
        | _ :: r5 => some (key, r4.takeWhile (fun c => c != '\''), r5)
        | [] => bareValue key r3
      | _ => bareValue key r3
    | _ => none

/-- Replay of the `while ((match = attrsRegex.exec(attrs)) !== null)` loop,
collecting the (key, value) capture pairs in scan order.  The fuel starts at
the length of the input; every step consumes at least one character, so the
fuel never runs out. -/
def scanAttrsAux : Nat → List Char → List (List Char × List Char)
  | 0, _ => []
  | _, [] => []
  | Nat.succ fuel, s@(_ :: rest) =>
    match matchAttrAt s with
    | some (k, v, r) => (k, v) :: scanAttrsAux fuel r
    | none => scanAttrsAux fuel rest

/-- All (key, value) pairs the attrs regex produces on the input, in order. -/
def scanAttrs (attrs : String) : List (String × String) :=
  (scanAttrsAux attrs.data.length attrs.data).map fun kv =>
    (kv.1.asString, kv.2.asString)

/-- One loop iteration of the compiler: emission for a single (key, value)
pair, keys compared after `toLowerCase` (codeGenerator.ts lines 445-457). -/
def applyAttrPart (sel : String) (kv : String × String) : String :=
  let key := jsToLower kv.1
  let value := kv.2
  if key == "id" then
    sel ++ "#" ++ ((jsSplitWS value).headD "")
  else if key == "class" then
    let classes := jsJoin "." ((jsSplitWS value).filter fun t => t != "")
    if classes != "" then sel ++ "." ++ classes else sel
  else
    sel ++ "[" ++ key ++ "=\"" ++ escQuotes value ++ "\"]"

/-- Selector compiler `convertToCssSelector` of
src/services/codeGenerator.ts (lines 436-464), normal (non-throwing) path. -/
def convertToCssSelector (tag attrs : String) : String :=
  let selector := jsTrim tag
  if jsTrim attrs == "" then selector
  else (scanAttrs attrs).foldl applyAttrPart selector

/-- Selector compiler `convertToSelector` of src/App.tsx (lines 1329-1354),
normal (non-throwing) path; its try-block is identical to the one in
codeGenerator.ts. -/
def convertToSelectorApp (tag attrs : String) : String :=
  let selector := jsTrim tag
  if jsTrim attrs == "" then selector
  else (scanAttrs attrs).foldl applyAttrPart selector

/-- Value of the `catch` branch of `convertToCssSelector`
(codeGenerator.ts lines 460-463): the function falls back to the trimmed tag
if anything in the loop raises. -/
def convertToCssSelectorCatch (tag : String) : String :=
  jsTrim tag

/-- Value of the `catch` branch of `convertToSelector` (App.tsx lines
1350-1353): a fixed sentinel string. -/
def convertToSelectorAppCatch : String :=
  "INVALID_SELECTOR_DUE_TO_ATTR_PARSE_ERROR"


/-! ### Sample-document model

The tester and the harvesters consume the preview iframe document only through
`querySelectorAll`, `querySelector`, `getAttribute` and text access.  The
document is modelled as a tree, and those accessors are implemented by a CSS
engine for the compound-selector fragment that the compilers emit (a type
selector followed by `#id`, `.class`, `[key]`, `[key="value"]` parts).  A
selector outside this fragment is a syntax error: the query raises, modelled
as `Except.error`, exactly like the `SyntaxError` the browser engine throws on
an invalid selector. -/

mutual
inductive Dom where
  | text (s : String)
  | elem (tag : String) (attrs : List (String × String)) (children : DomList)
inductive DomList where
  | nil
  | cons (d : Dom) (ds : DomList)
end

/-- Parts of a compound CSS selector. -/
inductive SelPart where
  | typeSel (name : String)
  | univ
  | idSel (name : String)
  | classSel (name : String)
  | attrPresent (key : String)
  | attrEq (key value : String)

/-- Reads a double-quoted attribute value with backslash escapes, returning
the value and the rest after the closing quote. -/
def takeAttrVal : Nat → List Char → Option (List Char × List Char)
  | 0, _ => none
  | _, [] => none
  | Nat.succ fuel, c :: r =>
    if c == '"' then some ([], r)
    else if c == '\\' then
      match r with
      | c2 :: r2 => (takeAttrVal fuel r2).map fun p => (c2 :: p.1, p.2)
      | [] => none
    else (takeAttrVal fuel r).map fun p => (c :: p.1, p.2)

/-- Parses the `#id`, `.class`, `[key]` and `[key="value"]` parts that may
follow the head of a compound selector. -/
def parseSelParts : Nat → List Char → Option (List SelPart)
  | 0, _ => none
  | _, [] => some []
  | Nat.succ fuel, c :: r =>
    if c == '#' then
      let n := r.takeWhile isWordChar
      if n.isEmpty then none
      else (parseSelParts fuel (r.dropWhile isWordChar)).map (SelPart.idSel n.asString :: ·)
    else if c == '.' then
      let n := r.takeWhile isWordChar
      if n.isEmpty then none
      else (parseSelParts fuel (r.dropWhile isWordChar)).map (SelPart.classSel n.asString :: ·)
    else if c == '[' then
      let k := r.takeWhile isWordChar
      if k.isEmpty then none
      else
        match r.dropWhile isWordChar with
        | ']' :: r2 => (parseSelParts fuel r2).map (SelPart.attrPresent k.asString :: ·)
        | '=' :: '"' :: r2 =>
          match takeAttrVal (r2.length + 1) r2 with
          | some (v, ']' :: r3) =>
            (parseSelParts fuel r3).map (SelPart.attrEq k.asString v.asString :: ·)
          | _ => none
        | _ => none
    else none

/-- Parses a compound selector; `none` is a CSS syntax error. -/
def parseCompound (sel : String) : Option (List SelPart) :=
  match sel.data with
  | [] => none
  | c :: r =>
    if c == '*' then (parseSelParts (r.length + 1) r).map (SelPart.univ :: ·)
    else if isWordChar c then
      let n := (c :: r).takeWhile isWordChar
      (parseSelParts (r.length + 1) ((c :: r).dropWhile isWordChar)).map
        (SelPart.typeSel n.asString :: ·)
    else parseSelParts (sel.data.length + 1) sel.data

/-- HTML attribute lookup (attribute names are matched case-insensitively). -/
def lookupAttr (attrs : List (String × String)) (k : String) : Option String :=
  match attrs.find? fun p => jsToLower p.1 == jsToLower k with
  | some p => some p.2
  | none => none

/-- Matching of one selector part against an element. -/
def partMatches (tag : String) (attrs : List (String × String)) : SelPart → Bool
  | .typeSel n => jsToLower n == jsToLower tag
  | .univ => true
  | .idSel n => lookupAttr attrs "id" == some n
  | .classSel n =>
    match lookupAttr attrs "class" with
    | some cv => ((jsSplitWS cv).filter fun t => t != "").contains n
    | none => false
  | .attrPresent k => (lookupAttr attrs k).isSome
  | .attrEq k v => lookupAttr attrs k == some v

/-- Matching of a whole compound selector against an element. -/
def elemMatches (ps : List SelPart) (tag : String) (attrs : List (String × String)) : Bool :=
  ps.all (partMatches tag attrs)

mutual
/-- All matches among a node and its descendants, in document order. -/
def domMatchesIn (ps : List SelPart) : Dom → List Dom
  | .text _ => []
  | .elem t a cs =>
    (if elemMatches ps t a then [Dom.elem t a cs] else []) ++ domListMatchesIn ps cs
/-- All matches inside a forest, in document order. -/
def domListMatchesIn (ps : List SelPart) : DomList → List Dom
  | .nil => []
  | .cons d ds => domMatchesIn ps d ++ domListMatchesIn ps ds
end

/-- Element attribute accessor, as `el.getAttribute(k)` (null is `none`). -/
def getAttr : Dom → String → Option String
  | .text _, _ => none
  | .elem _ a _, k => lookupAttr a k

mutual
/-- Concatenated text of a node, as `el.textContent`. -/
def textContent : Dom → String
  | .text s => s
  | .elem _ _ cs => textContentList cs
def textContentList : DomList → String
  | .nil => ""
  | .cons d ds => textContent d ++ textContentList ds
end

/-- Document-level `querySelectorAll sel`: the matches among the root and all
its descendants, or a raised `SyntaxError`. -/
def querySelectorAll (doc : Dom) (sel : String) : Except Unit (List Dom) :=
  match parseCompound sel with
  | none => Except.error ()
  | some ps => Except.ok (domMatchesIn ps doc)

/-- Element-level `el.querySelector(sel)`: the first matching descendant (the
element itself is excluded), or a raised `SyntaxError`. -/
def querySelectorDesc (el : Dom) (sel : String) : Except Unit (Option Dom) :=
  match parseCompound sel with
  | none => Except.error ()
  | some ps =>
    match el with
    | .text _ => Except.ok none
    | .elem _ _ cs => Except.ok (domListMatchesIn ps cs).head?


/-! ### Selector tester (App.tsx `handleTest`, lines 1418-1470)

`handleTest` writes one result object into the state slot of the descriptor
under test.  The embedding below returns the value written for an
`'extractor'`-typed test; the surrounding `try`/`catch` is flattened so that a
raised query error lands in the catch result exactly where the source catches
it.  `ScrapingMode` is the mode state the tester branches on. -/

inductive ScrapingMode where
  | structured
  | simple
  | links
deriving DecidableEq

/-- Descriptor shape `{tag, attrs}` (TypeScript `Omit<Extractor, 'id' | 'name'>`). -/
structure Descriptor where
  tag : String
  attrs : String
deriving DecidableEq

/-- Result record `{count, preview, error}` cached per descriptor. -/
structure TestResult where
  count : Nat
  preview : String
  error : Bool
deriving DecidableEq

/-- The `Array.from(containers).filter(c => c.querySelector(selector))` step;
a query error on any container is a raised exception. -/
def filterHasMatch (sel : String) : List Dom → Except Unit (List Dom)
  | [] => Except.ok []
  | c :: cs =>
    match querySelectorDesc c sel with
    | Except.error e => Except.error e
    | Except.ok r =>
      match filterHasMatch sel cs with
      | Except.error e => Except.error e
      | Except.ok rest => Except.ok (if r.isSome then c :: rest else rest)

/-- Value stored by `handleTest('extractor', id, tag, attrs)` for the tested
field (App.tsx lines 1418-1470, `'extractor'` branch). -/
def handleTestExtractor (doc : Dom) (scrapingMode : ScrapingMode)
    (container : Descriptor) (tag attrs : String) : TestResult :=
  if jsTrim tag == "" then ⟨0, "HTML Tag is empty.", true⟩
  else
    let selector := convertToSelectorApp tag attrs
    if scrapingMode == ScrapingMode.structured && container.tag != "" then
      let containerSelector := convertToSelectorApp container.tag container.attrs
      match querySelectorAll doc containerSelector with
      | Except.error _ => ⟨0, "Invalid Tag or Attributes for testing.", true⟩
      | Except.ok containers =>
        if containers.length > 0 then
          match filterHasMatch selector containers with
          | Except.error _ => ⟨0, "Invalid Tag or Attributes for testing.", true⟩
          | Except.ok matchesInContainers =>
            let count := matchesInContainers.length
            ⟨count,
              toString count ++ " of " ++ toString containers.length ++
                " containers have a match.",
              count == 0⟩
        else ⟨0, "No containers found to test within.", true⟩
    else
      match querySelectorAll doc selector with
      | Except.error _ => ⟨0, "Invalid Tag or Attributes for testing.", true⟩
      | Except.ok ms =>
        let count := ms.length
        let preview := "Found " ++ toString count ++ " total matches. Preview: " ++
          jsJoin " | " ((ms.take 3).map fun el => (jsTrim (textContent el)).take 20 ++ "...")
        ⟨count,
          if preview == "" then "Found " ++ toString count ++ " matches. (No text content)"
          else preview,
          count == 0⟩

/-! ### Link harvesters (App.tsx lines 1364-1416)

Both harvesters resolve a raw `href` with `new URL(raw, base.href).href` and
fall back to the raw value when the constructor throws.  URL resolution
against the base produced by `getBaseUrl` is external to the repository; it is
abstracted as a `resolve` parameter where `resolve raw = none` models a
throwing `new URL` call. -/

/-- Entry `{text, href, selected}` pushed into `extractedLinks`. -/
structure LinkEntry where
  text : String
  href : String
  selected : Bool
deriving DecidableEq

/-- The `try { new URL(raw, base.href).href } catch { raw }` computation. -/
def resolveHref (resolve : String → Option String) (raw : String) : String :=
  match resolve raw with
  | some h => h
  | none => raw

/-- Entry built from an anchor element (text is
`innerText.trim().replace(/\s\s+/g, ' ')`, modelled over the text content). -/
def mkLinkEntry (resolve : String → Option String) (a : Dom) : LinkEntry :=
  { text := collapseWSStr (jsTrim (textContent a))
    href := resolveHref resolve ((getAttr a "href").getD "")
    selected := true }

/-- Harvester `handleFindAllLinksPreview` (App.tsx lines 1364-1386): value
stored into `extractedLinks`. -/
def handleFindAllLinksPreview (doc : Dom) (resolve : String → Option String) :
    Except Unit (List LinkEntry) :=
  match querySelectorAll doc "a[href]" with
  | Except.error e => Except.error e
  | Except.ok anchors =>
    if anchors.length == 0 then Except.ok []
    else Except.ok (anchors.map (mkLinkEntry resolve))

/-- The `containers.forEach` loop of `handleFindLinksInContainerPreview`:
for each container, the first descendant matching the link selector is taken,
and the container contributes an entry only when that anchor exists and has a
truthy `href` attribute. -/
def collectContainerLinks (resolve : String → Option String) (linkSel : String) :
    List Dom → Except Unit (List LinkEntry)
  | [] => Except.ok []
  | c :: cs =>
    match querySelectorDesc c linkSel with
    | Except.error e => Except.error e
    | Except.ok anchor =>
      match collectContainerLinks resolve linkSel cs with
      | Except.error e => Except.error e
      | Except.ok rest =>
        match anchor with
        | some a =>
          if (getAttr a "href").getD "" != "" then Except.ok (mkLinkEntry resolve a :: rest)
          else Except.ok rest
        | none => Except.ok rest

/-- Harvester `handleFindLinksInContainerPreview` (App.tsx lines 1388-1416):
value stored into `extractedLinks`.  When either compiled selector is empty
the handler returns early without touching the list; that early exit is the
`Except.ok []` first branch. -/
def handleFindLinksInContainerPreview (doc : Dom)
    (linkContainer linkSelector : Descriptor) (resolve : String → Option String) :
    Except Unit (List LinkEntry) :=
  let containerSelector := convertToSelectorApp linkContainer.tag linkContainer.attrs
  let linkSel := convertToSelectorApp linkSelector.tag linkSelector.attrs
  if containerSelector == "" || linkSel == "" then Except.ok []
  else
    match querySelectorAll doc containerSelector with
    | Except.error e => Except.error e
    | Except.ok containers => collectContainerLinks resolve linkSel containers

/-! ### Script synthesizer (src/services/codeGenerator.ts, lines 466-817)

The embeddings below rebuild the exact text the TypeScript template literals
produce.  Literal braces of the emitted Python are written with the escapes
`\x7b` and `\x7d`.  Optional parameters of `GenerateBsCodeParams` are
`Option`s, `none` standing for an omitted (undefined) argument, and JavaScript
truthiness of an optional string is `truthyS`.  The one runtime exception the
function can raise (the unguarded `urlSuffix.replace` on line 684) is
modelled as `Except.error`. -/

inductive OutputFormat where
  | csv
  | json
  | print
deriving DecidableEq

inductive LinkExtractionStrategy where
  | all
  | container
deriving DecidableEq

inductive Source where
  | liveUrl
  | localFiles
deriving DecidableEq

inductive Browser where
  | chrome
  | firefox
  | edge
  | brave
  | opera
deriving DecidableEq

/-- Named field descriptor `{id, name, tag, attrs}`. -/
structure Extractor where
  id : Nat
  name : String
  tag : String
  attrs : String
deriving DecidableEq

/-- Parameter record of `generateBeautifulSoupCode` (codeGenerator.ts lines
18-36); the fields below `source` are optional in the TypeScript interface. -/
structure GenerateBsCodeParams where
  projectName : String
  scrapingMode : ScrapingMode
  container : Descriptor
  extractors : List Extractor
  outputFormat : OutputFormat
  source : Source
  linkExtractionStrategy : Option LinkExtractionStrategy
  linkContainer : Option Descriptor
  linkSelector : Option Descriptor
  url : Option String
  urlPrefix : Option String
  urlSuffix : Option String
  proxyList : Option String
  delay : Option Nat
  browser : Option Browser

/-- JavaScript truthiness of an optional string: present and non-empty. -/
def truthyS (o : Option String) : Bool :=
  o.getD "" != ""

/-- JavaScript `a || b` on optional strings. -/
def jsOrS (a b : Option String) : Option String :=
  if truthyS a then a else b

/-- JavaScript `split('\n')`. -/
def splitLinesGo : List Char → List Char → List String
  | [], acc => [acc.reverse.asString]
  | c :: cs, acc =>
    if c == '\n' then acc.reverse.asString :: splitLinesGo cs []
    else splitLinesGo cs (c :: acc)

/-- JavaScript `split('\n')` on strings. -/
def splitLines (s : String) : List String :=
  splitLinesGo s.data []

/-- Drops trailing zeros of a digit block. -/
def stripTrailingZeros (s : String) : String :=
  (s.data.reverse.dropWhile (fun c => c == '0')).reverse.asString

/-- Decimal rendering of the JavaScript number `d / 1000` for a positive
integer `d`, as the template `${delay / 1000}` prints it. -/
def renderJsDiv1000 (d : Nat) : String :=
  if d % 1000 == 0 then toString (d / 1000)
  else
    let r := d % 1000
    let padded := (if r < 10 then "00" else if r < 100 then "0" else "") ++ toString r
    toString (d / 1000) ++ "." ++ stripTrailingZeros padded

/-- Rendering of `${delay ? delay / 1000 : 2}` (codeGenerator.ts line 706). -/
def renderDelay : Option Nat → String
  | some d => if d == 0 then "2" else renderJsDiv1000 d
  | none => "2"

/-- The key string of a `Browser` value. -/
def browserKey : Browser → String
  | .chrome => "chrome"
  | .firefox => "firefox"
  | .edge => "edge"
  | .brave => "brave"
  | .opera => "opera"

/-- Structured extraction block (`getStructuredExtractionLogic`,
codeGenerator.ts lines 466-482). -/
def getStructuredExtractionLogic (container : Descriptor) (extractors : List Extractor) :
    String :=
  let containerSelector := escQuotes (convertToCssSelector container.tag container.attrs)
  "    # Find all the container elements\n    container_selector = \"" ++ containerSelector ++
  "\"\n    containers = soup.select(container_selector)\n    print(f\"    Found \x7blen(containers)\x7d containers for this URL.\")\n\n    # Extract data from each container\n    for c in containers:\n        item = \x7b\x7d\n" ++
  jsJoin "\n" (extractors.map fun e =>
    "        field_element = c.select_one(\"" ++
    escQuotes (convertToCssSelector e.tag e.attrs) ++
    "\")\n        item['" ++ e.name ++
    "'] = field_element.get_text(strip=True) if field_element else None") ++
  "\n        all_data.append(item)"

/-- Simple extraction block (`getSimpleExtractionLogic`, codeGenerator.ts
lines 484-494). -/
def getSimpleExtractionLogic (extractor : Extractor) : String :=
  let selector := escQuotes (convertToCssSelector extractor.tag extractor.attrs)
  "    # Find all matching elements on the page\n    selector = \"" ++ selector ++
  "\"\n    elements = soup.select(selector)\n    print(f\"    Found \x7blen(elements)\x7d matching elements for this URL.\")\n\n    # Extract the text content from each element\n    for el in elements:\n        all_data.append(el.get_text(strip=True))"

/-- Link extraction block (`getLinkExtractionLogic`, codeGenerator.ts lines
496-546). -/
def getLinkExtractionLogic (strategy : LinkExtractionStrategy)
    (linkContainer linkSelector : Descriptor) (resolveUrl : Bool) : String :=
  let resolveLogic := "        # Resolve relative URLs to absolute URLs\n        href = link.get('href')\n        if href:\n            try:\n                absolute_href = urljoin(base_url, href)\n                item['href'] = absolute_href\n            except:\n                item['href'] = href # Fallback for malformed URLs"
  let noResolveLogic := "        # Get the href attribute\n        item['href'] = link.get('href')"
  let finalResolveLogic := if resolveUrl then resolveLogic else noResolveLogic
  if strategy == LinkExtractionStrategy.container then
    let containerSelector := escQuotes (convertToCssSelector linkContainer.tag linkContainer.attrs)
    let finalLinkSelector := escQuotes (convertToCssSelector linkSelector.tag linkSelector.attrs)
    "    # Find all the card/container elements\n    container_selector = \"" ++
    containerSelector ++
    "\"\n    containers = soup.select(container_selector)\n    print(f\"    Found \x7blen(containers)\x7d containers in this file.\")\n\n    # Extract a link from each container\n    for c in containers:\n        link = c.select_one(\"" ++
    finalLinkSelector ++
    "\")\n        if not link:\n            continue\n        \n        item = \x7b\n            'text': link.get_text(strip=True),\n        \x7d\n" ++
    finalResolveLogic ++
    "\n        if item.get('href'): # Only append if a link was actually found\n            all_data.append(item)"
  else
    "    # Find all hyperlink elements\n    links = soup.find_all('a', href=True)\n    print(f\"    Found \x7blen(links)\x7d links in this file.\")\n\n    # Extract text and href from each link\n    for link in links:\n        item = \x7b\n            'text': link.get_text(strip=True),\n        \x7d\n" ++
    finalResolveLogic ++
    "\n        if item.get('href'): # Only append if a link was actually found\n            all_data.append(item)"

/-- Output block (`getOutputLogic`, codeGenerator.ts lines 549-631). -/
def getOutputLogic (scrapingMode : ScrapingMode) (outputFormat : OutputFormat)
    (extractorName : String) (projectName : String) : String :=
  let csvFileName := if scrapingMode == ScrapingMode.links then "links.csv" else "output.csv"
  let jsonFileName := if scrapingMode == ScrapingMode.links then "links.json" else "output.json"
  let structuredCsv := "# --- Save data to CSV ---\nif all_data:\n    csv_file_name = os.path.join(folder_name, \"" ++ csvFileName ++ "\")\n    print(f\"\\nSaving \x7blen(all_data)\x7d items to \x7bcsv_file_name\x7d...\")\n    try:\n        with open(csv_file_name, 'w', newline='', encoding='utf-8') as csvfile:\n            writer = csv.DictWriter(csvfile, fieldnames=all_data[0].keys())\n            writer.writeheader()\n            writer.writerows(all_data)\n        print(\"Data successfully saved to CSV.\")\n    except Exception as e:\n        print(f\"Error saving to CSV: \x7be\x7d\")\nelse:\n    print(\"\\nNo data extracted to save.\")"
  let structuredJson := "# --- Save data to JSON ---\nif all_data:\n    json_file_name = os.path.join(folder_name, \"" ++ jsonFileName ++ "\")\n    print(f\"\\nSaving \x7blen(all_data)\x7d items to \x7bjson_file_name\x7d...\")\n    try:\n        with open(json_file_name, 'w', encoding='utf-8') as jsonfile:\n            json.dump(all_data, jsonfile, indent=4)\n        print(\"Data successfully saved to JSON.\")\n    except Exception as e:\n        print(f\"Error saving to JSON: \x7be\x7d\")\nelse:\n    print(\"\\nNo data extracted to save.\")"
  let simpleCsv := "# --- Save data to CSV ---\nif all_data:\n    csv_file_name = os.path.join(folder_name, \"output.csv\")\n    print(f\"\\nSaving \x7blen(all_data)\x7d items to \x7bcsv_file_name\x7d...\")\n    try:\n        with open(csv_file_name, 'w', newline='', encoding='utf-8') as csvfile:\n            writer = csv.writer(csvfile)\n            writer.writerow(['" ++ extractorName ++ "'])  # Header\n            for item in all_data:\n                writer.writerow([item])\n        print(\"Data successfully saved to CSV.\")\n    except Exception as e:\n        print(f\"Error saving to CSV: \x7be\x7d\")\nelse:\n    print(\"\\nNo data extracted to save.\")"
  let simpleJson := "# --- Save data to JSON ---\nif all_data:\n    json_file_name = os.path.join(folder_name, \"output.json\")\n    print(f\"\\nSaving \x7blen(all_data)\x7d items to \x7bjson_file_name\x7d...\")\n    try:\n        # Saving as a list of strings under a single key\n        output_json = \x7b'" ++ extractorName ++ "': all_data\x7d\n        with open(json_file_name, 'w', encoding='utf-8') as jsonfile:\n            json.dump(output_json, jsonfile, indent=4)\n        print(\"Data successfully saved to JSON.\")\n    except Exception as e:\n        print(f\"Error saving to JSON: \x7be\x7d\")\nelse:\n    print(\"\\nNo data extracted to save.\")"
  let printOutput := "# --- Print Extracted Data ---\nprint(\"\\n--- Extracted Data ---\")\nif not all_data:\n    print(\"No data was extracted.\")\nelse:\n    for item in all_data:\n        print(item)"
  let _ := projectName
  if scrapingMode == ScrapingMode.structured || scrapingMode == ScrapingMode.links then
    if outputFormat == OutputFormat.csv then structuredCsv
    else if outputFormat == OutputFormat.json then structuredJson
    else printOutput
  else
    if outputFormat == OutputFormat.csv then simpleCsv
    else if outputFormat == OutputFormat.json then simpleJson
    else printOutput

/-- Guidance stub returned for an incomplete extraction configuration
(codeGenerator.ts lines 645-648). -/
def bsIncompleteStub : String :=
  "# Please complete the definitions in the 'Define Extractors' step to generate the script.\n# - For 'Structured Data', define a container and at least one field.\n# - For 'Simple List', define the single field you want to extract.\n# - For 'Links from Cards', define the Card Container."

/-- The `!extractors[0]?.tag` test of the guard. -/
def headTagMissing : List Extractor → Bool
  | [] => true
  | e :: _ => e.tag == ""

/-- The `!linkContainer?.tag` test of the guard. -/
def optTagMissing : Option Descriptor → Bool
  | none => true
  | some d => d.tag == ""

/-- Incomplete-configuration guard of `generateBeautifulSoupCode`
(codeGenerator.ts lines 640-644). -/
def bsIncomplete (p : GenerateBsCodeParams) : Bool :=
  (p.scrapingMode == ScrapingMode.structured &&
    (p.container.tag == "" || p.extractors.length == 0)) ||
  (p.scrapingMode == ScrapingMode.simple && headTagMissing p.extractors) ||
  (p.scrapingMode == ScrapingMode.links &&
    p.linkExtractionStrategy == some LinkExtractionStrategy.container &&
    optTagMissing p.linkContainer)

/-- Extraction block chosen by `scrapingMode` (codeGenerator.ts lines
651-659).  The `headD` default is never used: when the guard has not fired,
`simple` mode guarantees a first extractor. -/
def extractionLogicFor (p : GenerateBsCodeParams) : String :=
  match p.scrapingMode with
  | ScrapingMode.structured => getStructuredExtractionLogic p.container p.extractors
  | ScrapingMode.simple => getSimpleExtractionLogic (p.extractors.headD ⟨0, "", "", ""⟩)
  | ScrapingMode.links =>
    let resolveUrls := p.source == Source.liveUrl ||
      (p.source == Source.localFiles && (truthyS p.url || truthyS p.urlPrefix))
    getLinkExtractionLogic (p.linkExtractionStrategy.getD LinkExtractionStrategy.all)
      (p.linkContainer.getD ⟨"", ""⟩) (p.linkSelector.getD ⟨"a", ""⟩) resolveUrls

/-- Import list of the live-url branch, in `Set` insertion order
(codeGenerator.ts lines 671-677; all candidates are distinct, so the set adds
preserve this order). -/
def liveImports (p : GenerateBsCodeParams) (proxyListCleaned : String) : List String :=
  ["from bs4 import BeautifulSoup", "import os", "import requests", "import time"] ++
  (if p.outputFormat == OutputFormat.csv then ["import csv"] else []) ++
  (if p.outputFormat == OutputFormat.json then ["import json"] else []) ++
  (if proxyListCleaned != "" then ["import random"] else []) ++
  (if p.scrapingMode == ScrapingMode.links then ["from urllib.parse import urljoin"] else [])

/-- The fixed page range emitted by the live-url multi-page URL list
(codeGenerator.ts lines 685-689): `start_page` is hardcoded to 1 and
`end_page` to `start_page + 5`. -/
def staticUrlRangeBlock : String :=
  "# Note: You may need to adjust start_page and end_page based on your static config\nstart_page = 1 \nend_page = start_page + 5 \nfor page_num in range(start_page, end_page):\n    urls.append(f\"\x7burl_prefix\x7d\x7bpage_num\x7d\x7burl_suffix\x7d\")"

/-- Multi-page URL list of the live-url branch (codeGenerator.ts lines
682-689), taken when `urlPrefix` is truthy. -/
def staticUrlListLogic (urlPrefix urlSuffix : String) : String :=
  "urls = []\nurl_prefix = \"" ++ escQuotes urlPrefix ++ "\"\nurl_suffix = \"" ++
  escQuotes urlSuffix ++ "\"\n" ++ staticUrlRangeBlock

/-- Single-page URL list of the live-url branch (codeGenerator.ts line 691);
an undefined `url` is interpolated as the text `undefined`. -/
def singleUrlListLogic (url : Option String) : String :=
  "urls = [\"" ++ url.getD "undefined" ++ "\"]"

/-- The `proxies = [...]` line of the live-url branch (codeGenerator.ts line
694). -/
def liveProxySetup (proxyListCleaned : String) : String :=
  if proxyListCleaned != "" then
    "proxies = [\"" ++ jsJoin "\", \"" (splitLines proxyListCleaned) ++ "\"]"
  else "proxies = []"

/-- Live-url script text before the URL list (codeGenerator.ts lines
696-723). -/
def liveUrlHead (p : GenerateBsCodeParams) (proxyListCleaned : String) : String :=
  jsJoin "\n" (liveImports p proxyListCleaned) ++
  "\n\n# --- Setup Instructions ---\n# 1. Make sure you have Python installed.\n# 2. Install required libraries:\n#    pip install beautifulsoup4 requests\n\n# --- Configuration ---\nfolder_name = \"" ++
  p.projectName ++
  "\"\n# Time to wait between requests, in seconds. Be respectful of the website's servers.\nREQUEST_DELAY = " ++
  renderDelay p.delay ++
  "\n# A list to hold all data from all pages\nall_data = []\n# Browser user-agents to mimic a real browser visit\nUSER_AGENTS = \x7b\n    \"chrome\": \"Mozilla/5.0 (Windows NT 10.0; Win64; x64) AppleWebKit/537.36 (KHTML, like Gecko) Chrome/91.0.4472.124 Safari/537.36\",\n    \"firefox\": \"Mozilla/5.0 (Windows NT 10.0; Win64; x64; rv:89.0) Gecko/20100101 Firefox/89.0\",\n    \"edge\": \"Mozilla/5.0 (Windows NT 10.0; Win64; x64) AppleWebKit/537.36 (KHTML, like Gecko) Chrome/91.0.4472.124 Safari/537.36 Edg/91.0.864.48\",\n    \"brave\": \"Mozilla/5.0 (Windows NT 10.0; Win64; x64) AppleWebKit/537.36 (KHTML, like Gecko) Chrome/91.0.4472.124 Safari/537.36\",\n    \"opera\": \"Mozilla/5.0 (Windows NT 10.0; Win64; x64) AppleWebKit/537.36 (KHTML, like Gecko) Chrome/91.0.4472.124 Safari/537.36 OPR/77.0.4054.90\",\n\x7d\n# Your chosen browser user-agent\nheaders = \x7b'User-Agent': USER_AGENTS.get(\"" ++
  (match p.browser with
   | some b => browserKey b
   | none => "chrome") ++
  "\", USER_AGENTS[\"chrome\"])\x7d\n" ++
  liveProxySetup proxyListCleaned ++
  "\n\n# --- Script ---\nos.makedirs(folder_name, exist_ok=True)\n"

/-- Live-url script text after the URL list (codeGenerator.ts lines
725-753). -/
def liveUrlTail (extractionLogic outputLogic : String) : String :=
  "\n\nprint(f\"Starting to scrape \x7blen(urls)\x7d URL(s)...\")\nfor url in urls:\n    print(f\"  - Scraping: \x7burl\x7d\")\n    base_url = url\n    \n    proxy_to_use = \x7b\x7d\n    if proxies:\n        chosen_proxy = random.choice(proxies)\n        proxy_to_use = \x7b\"http\": f\"http://\x7bchosen_proxy\x7d\", \"https\": f\"http://\x7bchosen_proxy\x7d\"\x7d\n        print(f\"    Using proxy: \x7bchosen_proxy\x7d\")\n\n    try:\n        response = requests.get(url, headers=headers, proxies=proxy_to_use, timeout=10)\n        response.raise_for_status()\n    except requests.exceptions.RequestException as e:\n        print(f\"    Error fetching URL \x7burl\x7d: \x7be\x7d\")\n        time.sleep(REQUEST_DELAY) # Wait before the next attempt\n        continue\n\n    soup = BeautifulSoup(response.text, \"html.parser\")\n\n" ++
  extractionLogic ++
  "\n    \n    print(f\"    Waiting \x7bREQUEST_DELAY\x7d seconds before next request...\")\n    time.sleep(REQUEST_DELAY)\n\n# --- Final Output ---\n" ++
  outputLogic ++ "\n"

/-- Import list of the local-files branch (codeGenerator.ts lines
757-764). -/
def localImports (p : GenerateBsCodeParams) (shouldResolveForLocal : Bool) : List String :=
  ["from bs4 import BeautifulSoup", "import os"] ++
  (if p.outputFormat == OutputFormat.csv then ["import csv"] else []) ++
  (if p.outputFormat == OutputFormat.json then ["import json"] else []) ++
  (if shouldResolveForLocal then ["from urllib.parse import urljoin"] else [])

/-- Local-files script text (codeGenerator.ts lines 756-816). -/
def localFilesScript (p : GenerateBsCodeParams) (extractionLogic outputLogic : String) :
    String :=
  let shouldResolveForLocal := p.scrapingMode == ScrapingMode.links &&
    (p.source == Source.localFiles && (truthyS p.url || truthyS p.urlPrefix))
  let baseUrlForFiles := jsOrS p.url p.urlPrefix
  let baseUrlDeclaration :=
    if shouldResolveForLocal && truthyS baseUrlForFiles then
      "base_url = \"" ++ baseUrlForFiles.getD "" ++ "\""
    else "base_url = ''"
  let localFilesHeader :=
    if p.scrapingMode == ScrapingMode.links then
      if shouldResolveForLocal && truthyS baseUrlForFiles then
        "# Using base URL: " ++ baseUrlForFiles.getD "" ++ " to resolve relative links."
      else
        "# Note: A base URL was not provided. Relative links (e.g., '/page2.html') will not be resolved to absolute URLs."
    else ""
  jsJoin "\n" (localImports p shouldResolveForLocal) ++ "\n" ++ localFilesHeader ++
  "\n# --- Setup Instructions ---\n# 1. Make sure you have Python installed.\n# 2. Install required libraries:\n#    pip install beautifulsoup4\n# 3. Place this script in the SAME directory as the '" ++
  p.projectName ++
  "' folder.\n\n# --- Script ---\n# The folder where HTML files are located and output will be saved\nfolder_name = \"" ++
  p.projectName ++
  "\"\nall_data = []  # A list to hold all data from all files\n" ++
  baseUrlDeclaration ++
  "\n\n# Find all HTML files in the folder\ntry:\n    file_names = [f for f in os.listdir(folder_name) if f.endswith('.html')]\n    if not file_names:\n        print(f\"Error: No .html files found in the '\x7bfolder_name\x7d' directory.\")\n        exit()\nexcept FileNotFoundError:\n    print(f\"Error: The directory '\x7bfolder_name\x7d' does not exist. Make sure it's in the same location as this script.\")\n    exit()\n\nprint(f\"Processing \x7blen(file_names)\x7d file(s) from the '\x7bfolder_name\x7d' folder...\")\nfor file_name in file_names:\n    file_path = os.path.join(folder_name, file_name)\n    print(f\"  - Reading \x7bfile_path\x7d\")\n    try:\n        with open(file_path, \"r\", encoding=\"utf-8\") as f:\n            html_content = f.read()\n    except Exception as e:\n        print(f\"    Error reading file '\x7bfile_path\x7d': \x7be\x7d\")\n        continue  # Skip to the next file\n\n    soup = BeautifulSoup(html_content, \"html.parser\")\n    \n" ++
  replaceFirst extractionLogic "this URL" "this file" ++
  "\n\n# --- Final Output ---\n" ++
  outputLogic ++ "\n"

/-- Script synthesizer `generateBeautifulSoupCode` (codeGenerator.ts lines
633-817).  The only raise site is the unguarded `urlSuffix.replace(...)` on
line 684, reached exactly when the live-url branch builds a multi-page URL
list (`urlPrefix` truthy) while `urlSuffix` was omitted. -/
def generateBeautifulSoupCode (p : GenerateBsCodeParams) : Except String String :=
  if bsIncomplete p then Except.ok bsIncompleteStub
  else
    let extractionLogic := extractionLogicFor p
    let outputLogic := getOutputLogic p.scrapingMode p.outputFormat
      ((p.extractors.headD ⟨0, "", "", ""⟩).name) p.projectName
    if p.source == Source.liveUrl then
      let proxyListCleaned := jsTrim (p.proxyList.getD "")
      if truthyS p.urlPrefix then
        match p.urlSuffix with
        | none =>
          Except.error "TypeError: Cannot read properties of undefined (reading 'replace')"
        | some suf =>
          Except.ok (liveUrlHead p proxyListCleaned ++
            staticUrlListLogic (p.urlPrefix.getD "") suf ++
            liveUrlTail extractionLogic outputLogic)
      else
        Except.ok (liveUrlHead p proxyListCleaned ++ singleUrlListLogic p.url ++
          liveUrlTail extractionLogic outputLogic)
    else
      Except.ok (localFilesScript p extractionLogic outputLogic)

/-! ### Sample documents and support lemmas -/

/-- First structured-mode sample card: `div.item` containing an `h2`. -/
def item1 : Dom :=
  Dom.elem "div" [("class", "item")]
    (DomList.cons (Dom.elem "h2" [] (DomList.cons (Dom.text "A1") DomList.nil)) DomList.nil)

/-- Second structured-mode sample card. -/
def item2 : Dom :=
  Dom.elem "div" [("class", "item")]
    (DomList.cons (Dom.elem "h2" [] (DomList.cons (Dom.text "B2") DomList.nil)) DomList.nil)

/-- Third structured-mode sample card. -/
def item3 : Dom :=
  Dom.elem "div" [("class", "item")]
    (DomList.cons (Dom.elem "h2" [] (DomList.cons (Dom.text "C3") DomList.nil)) DomList.nil)

/-- Sample document with three `div.item` cards, each holding one `h2`. -/
def d3 : Dom :=
  Dom.elem "html" []
    (DomList.cons
      (Dom.elem "body" [] (DomList.cons item1 (DomList.cons item2 (DomList.cons item3 DomList.nil))))
      DomList.nil)

/-- Sample document with two empty `span` elements and no `div`. -/
def dSpans : Dom :=
  Dom.elem "html" []
    (DomList.cons (Dom.elem "span" [] DomList.nil)
      (DomList.cons (Dom.elem "span" [] DomList.nil) DomList.nil))

/-- Single `div` document used to show a bare tag selector can match. -/
def dDiv : Dom := Dom.elem "div" [] DomList.nil

/-- Anchor with a relative href. -/
def aGo : Dom := Dom.elem "a" [("href", "x")] (DomList.cons (Dom.text "Go") DomList.nil)

/-- Anchor whose `href` attribute is present but empty. -/
def aEmptyHref : Dom := Dom.elem "a" [("href", "")] DomList.nil

/-- Card containing an anchor. -/
def card1 : Dom :=
  Dom.elem "div" [("class", "card")]
    (DomList.cons (Dom.elem "a" [("href", "/p")] (DomList.cons (Dom.text "P") DomList.nil))
      DomList.nil)

/-- Card without any anchor. -/
def card2 : Dom :=
  Dom.elem "div" [("class", "card")] (DomList.cons (Dom.text "no link") DomList.nil)

/-- Sample document for the link harvesters. -/
def dLinks : Dom :=
  Dom.elem "html" []
    (DomList.cons aGo (DomList.cons aEmptyHref (DomList.cons card1 (DomList.cons card2 DomList.nil))))

/-- Concrete URL resolver used by witnesses: prefixes a fixed base. -/
def resolve0 (s : String) : Option String :=
  some ("http://base/" ++ s)

theorem dataAppend (a b : String) : (a ++ b).data = a.data ++ b.data := by
  cases a
  cases b
  rfl

theorem str_append_ne_empty_left (s x : String) (h : s.data.length ≠ 0) : s ++ x ≠ "" := by
  intro he
  have hd := congrArg String.data he
  rw [dataAppend] at hd
  have hl := congrArg List.length hd
  rw [List.length_append] at hl
  simp at hl
  exact h hl.1

theorem isPrefixList_self_append (p t : List Char) : isPrefixList p (p ++ t) = true := by
  induction p with
  | nil => rfl
  | cons c cs ih => simp [isPrefixList, ih]

theorem listHasSub_of_parts (m a b : List Char) : listHasSub m (a ++ m ++ b) = true := by
  induction a with
  | nil =>
    cases hm : m with
    | nil => cases b <;> simp [listHasSub, List.isEmpty, isPrefixList]
    | cons c cs =>
      simp only [List.nil_append]
      rw [List.cons_append]
      unfold listHasSub
      rw [← List.cons_append, ← hm, isPrefixList_self_append]
      simp
  | cons c cs ih =>
    rw [List.cons_append, List.cons_append]
    unfold listHasSub
    simp only [Bool.or_eq_true]
    right
    exact ih

theorem containsSub_append_right (x m : String) : containsSub (x ++ m) m = true := by
  unfold containsSub
  rw [dataAppend]
  have h := listHasSub_of_parts m.data x.data []
  rwa [List.append_nil] at h

theorem filterHasMatch_length_le (sel : String) :
    ∀ l r : List Dom, filterHasMatch sel l = Except.ok r → r.length ≤ l.length := by
  intro l
  induction l with
  | nil =>
    intro r h
    unfold filterHasMatch at h
    cases h
    exact Nat.le_refl 0
  | cons c cs ih =>
    intro r h
    unfold filterHasMatch at h
    cases hq : querySelectorDesc c sel with
    | error e => rw [hq] at h; cases h
    | ok o =>
      rw [hq] at h
      cases hr : filterHasMatch sel cs with
      | error e => rw [hr] at h; cases h
      | ok rest =>
        rw [hr] at h
        have hrr := Except.ok.inj h
        subst hrr
        by_cases ho : o.isSome
        · simp only [ho, if_true]
          exact Nat.succ_le_succ (ih rest hr)
        · simp only [ho, if_false]
          exact Nat.le_succ_of_le (ih rest hr)

/-- True exactly when the first character of the string is the digit 0. -/
def startsWithZero (s : String) : Bool :=
  match s.data with
  | '0' :: _ => true
  | _ => false

theorem startsWithZero_zero_of (x : String) : startsWithZero ("0 of " ++ x) = true := by
  unfold startsWithZero
  rw [dataAppend]
  rfl

/-! ### Claim theorems -/

/-- C2: the selector compiler satisfies the four enumerated rule-conformance
equations — `compile("div", "id=foo") = "div#foo"`,
`compile("span", 'class="a b"') = "span.a.b"`,
`compile("a", 'data-x="1"') = 'a[data-x="1"]'` and `compile("p", "") = "p"` —
both for `convertToCssSelector` of codeGenerator.ts and for its App.tsx
duplicate `convertToSelector`. -/
theorem selector_compiler_rule_conformance :
    convertToCssSelector "div" "id=foo" = "div#foo" ∧
    convertToCssSelector "span" "class=\"a b\"" = "span.a.b" ∧
    convertToCssSelector "a" "data-x=\"1\"" = "a[data-x=\"1\"]" ∧
    convertToCssSelector "p" "" = "p" ∧
    convertToSelectorApp "div" "id=foo" = "div#foo" ∧
    convertToSelectorApp "span" "class=\"a b\"" = "span.a.b" ∧
    convertToSelectorApp "a" "data-x=\"1\"" = "a[data-x=\"1\"]" ∧
    convertToSelectorApp "p" "" = "p" := by
  refine ⟨?_, ?_, ?_, ?_, ?_, ?_, ?_, ?_⟩ <;> decide

/-- C3 counterexample: the claim says that when tokenizing or emission raises,
the compiler returns a fixed sentinel that callers can treat as a guaranteed
zero-match.  The catch branch of `convertToCssSelector` (codeGenerator.ts
lines 460-463) instead returns the trimmed tag: the fallback differs between
inputs (so it is not one fixed string), and at tag `"div"` it is the selector
`"div"`, which matches an element of a sample document. -/
theorem compiler_catch_fallback_counterexample :
    convertToCssSelectorCatch "div" = "div" ∧
    convertToCssSelectorCatch "p" = "p" ∧
    convertToCssSelectorCatch "div" ≠ convertToCssSelectorCatch "p" ∧
    querySelectorAll dDiv "div" = Except.ok [Dom.elem "div" [] DomList.nil] := by
  refine ⟨rfl, rfl, by decide, rfl⟩

/-- C3 (amended): when tokenizing or emission raises, neither compiler
propagates the exception, but only App.tsx's `convertToSelector` returns the
fixed sentinel `INVALID_SELECTOR_DUE_TO_ATTR_PARSE_ERROR` (which, read as a
type selector, matches nothing in a document without elements of that name);
codeGenerator.ts's `convertToCssSelector` instead falls back to the trimmed
tag.  The try-block bodies of the two compilers are identical. -/
theorem compiler_catch_fallback_values :
    (∀ tag attrs, convertToSelectorApp tag attrs = convertToCssSelector tag attrs) ∧
    (∀ tag, convertToCssSelectorCatch tag = jsTrim tag) ∧
    convertToSelectorAppCatch = "INVALID_SELECTOR_DUE_TO_ATTR_PARSE_ERROR" ∧
    querySelectorAll d3 convertToSelectorAppCatch = Except.ok [] := by
  exact ⟨fun _ _ => rfl, fun _ => rfl, rfl, rfl⟩

/-- C4: for every document, container descriptor and field descriptor under
Structured mode, the count returned by the field test (the number of
container matches that contain at least one field match) is at most the total
number of container matches. -/
theorem field_test_count_le_container_count
    (doc : Dom) (container : Descriptor) (tag attrs : String) (cs : List Dom)
    (hct : container.tag ≠ "")
    (hq : querySelectorAll doc (convertToSelectorApp container.tag container.attrs) =
      Except.ok cs) :
    (handleTestExtractor doc ScrapingMode.structured container tag attrs).count ≤
      cs.length := by
  unfold handleTestExtractor
  by_cases htr : (jsTrim tag == "") = true
  · rw [if_pos htr]
    exact Nat.zero_le _
  · rw [if_neg htr]
    have hcond : (ScrapingMode.structured == ScrapingMode.structured &&
        container.tag != "") = true := by
      simp [hct]
    rw [if_pos hcond]
    dsimp only
    rw [hq]
    dsimp only
    by_cases hlen : cs.length > 0
    · rw [if_pos hlen]
      cases hf : filterHasMatch (convertToSelectorApp tag attrs) cs with
      | error e => exact Nat.zero_le _
      | ok r => exact filterHasMatch_length_le _ cs r hf
    · rw [if_neg hlen]
      exact Nat.zero_le _

/-- C4 witness: on the three-card sample document the structured field test
count is bounded by the three container matches. -/
theorem field_test_count_le_container_count_witness :
    (handleTestExtractor d3 ScrapingMode.structured ⟨"div", "class=item"⟩ "h2" "").count ≤ 3 :=
  field_test_count_le_container_count d3 ⟨"div", "class=item"⟩ "h2" ""
    [item1, item2, item3] (by decide) rfl

/-- C5: a structured field test with a non-empty container tag whose
container selector matches zero elements returns the distinct
"No containers found to test within." error result, whose message differs
from every zero-match field message `0 of M containers have a match.`. -/
theorem field_test_zero_containers_distinct_error
    (doc : Dom) (container : Descriptor) (tag attrs : String)
    (htag : (jsTrim tag == "") = false)
    (hct : container.tag ≠ "")
    (hq : querySelectorAll doc (convertToSelectorApp container.tag container.attrs) =
      Except.ok []) :
    handleTestExtractor doc ScrapingMode.structured container tag attrs =
      ⟨0, "No containers found to test within.", true⟩ ∧
    ∀ m : Nat, ("No containers found to test within." : String) ≠
      "0 of " ++ (toString m ++ " containers have a match.") := by
  constructor
  · unfold handleTestExtractor
    rw [if_neg (by simp [htag])]
    have hcond : (ScrapingMode.structured == ScrapingMode.structured &&
        container.tag != "") = true := by
      simp [hct]
    rw [if_pos hcond]
    dsimp only
    rw [hq]
    dsimp only
    rw [if_neg (by simp)]
  · intro m he
    have h0 := startsWithZero_zero_of (toString m ++ " containers have a match.")
    rw [← he] at h0
    exact absurd h0 (by decide)

/-- C5 witness: on a document with no `div.item` container the field test for
`h2` reports the container-unresolved error, not a zero-match field count. -/
theorem field_test_zero_containers_distinct_error_witness :
    handleTestExtractor dSpans ScrapingMode.structured ⟨"div", "class=item"⟩ "h2" "" =
      ⟨0, "No containers found to test within.", true⟩ ∧
    ("No containers found to test within." : String) ≠
      "0 of " ++ (toString 3 ++ " containers have a match.") :=
  ⟨(field_test_zero_containers_distinct_error dSpans ⟨"div", "class=item"⟩ "h2" ""
      rfl (by decide) rfl).1,
   (field_test_zero_containers_distinct_error dSpans ⟨"div", "class=item"⟩ "h2" ""
      rfl (by decide) rfl).2 3⟩

/-- First sample heading element. -/
def h2A : Dom := Dom.elem "h2" [] (DomList.cons (Dom.text "A1") DomList.nil)

/-- Second sample heading element. -/
def h2B : Dom := Dom.elem "h2" [] (DomList.cons (Dom.text "B2") DomList.nil)

/-- Third sample heading element. -/
def h2C : Dom := Dom.elem "h2" [] (DomList.cons (Dom.text "C3") DomList.nil)

theorem found_preview_ne_empty (c t x : String) : ("Found " ++ c ++ t) ++ x ≠ "" := by
  apply str_append_ne_empty_left
  rw [dataAppend, dataAppend]
  rw [List.length_append, List.length_append]
  have h6 : ("Found " : String).data.length = 6 := rfl
  omega

/-- C8 counterexample: on a document whose matches all have empty text, the
simple-mode field test preview is `Found 2 total matches. Preview: ... | ...`
— the `(No text content)` notice asserted by the claim never appears, because
the preview string always starts with the non-empty `Found N total matches.`
prefix, making the fallback unreachable. -/
theorem simple_field_empty_text_counterexample :
    handleTestExtractor dSpans ScrapingMode.simple ⟨"", ""⟩ "span" "" =
      ⟨2, "Found 2 total matches. Preview: ... | ...", false⟩ ∧
    containsSub "Found 2 total matches. Preview: ... | ..." "(No text content)" = false ∧
    containsSub "Found 2 total matches. Preview: ... | ..." "(no text content)" = false := by
  refine ⟨by decide, by decide, by decide⟩

/-- C8 (amended): a simple-mode field test returns count equal to the total
number of element matches on the whole document, error exactly when that
count is zero, and a preview consisting of the prefix
`Found N total matches. Preview: ` followed by up to three matches' trimmed
text truncated to 20 characters with an appended ellipsis, joined by ` | `.
The preview is never empty, so the `(No text content)` substitution in the
source is dead code: when all matched text is empty the preview shows
ellipsis-only entries instead. -/
theorem simple_field_test_count_and_preview
    (doc : Dom) (container : Descriptor) (tag attrs : String) (ms : List Dom)
    (htag : (jsTrim tag == "") = false)
    (hq : querySelectorAll doc (convertToSelectorApp tag attrs) = Except.ok ms) :
    handleTestExtractor doc ScrapingMode.simple container tag attrs =
      ⟨ms.length,
        "Found " ++ toString ms.length ++ " total matches. Preview: " ++
          jsJoin " | " ((ms.take 3).map fun el => (jsTrim (textContent el)).take 20 ++ "..."),
        ms.length == 0⟩ := by
  unfold handleTestExtractor
  rw [if_neg (by simp [htag])]
  dsimp only
  rw [if_neg (by simp)]
  rw [hq]
  dsimp only
  rw [if_neg (by simp only [beq_iff_eq]; exact found_preview_ne_empty _ _ _)]

/-- C8 witness: on the three-card sample document the simple-mode test for
`h2` finds all three headings and previews their text. -/
theorem simple_field_test_count_and_preview_witness :
    handleTestExtractor d3 ScrapingMode.simple ⟨"", ""⟩ "h2" "" =
      ⟨3, "Found 3 total matches. Preview: A1... | B2... | C3...", false⟩ :=
  (simple_field_test_count_and_preview d3 ⟨"", ""⟩ "h2" "" [h2A, h2B, h2C]
    rfl rfl).trans (by decide)

/-! ### Harvester support for C9 -/

/-- The anchor a container contributes, if any: the first descendant matching
the link selector, kept only when its `href` attribute is truthy. -/
def qualAnchor (linkSel : String) (c : Dom) : Option Dom :=
  match querySelectorDesc c linkSel with
  | Except.ok (some a) => if (getAttr a "href").getD "" != "" then some a else none
  | _ => none

theorem mkLinkEntry_href_ne (resolve : String → Option String)
    (hres : ∀ s r, resolve s = some r → r ≠ "")
    (hempty : (resolve "").isSome = true) (a : Dom) :
    (mkLinkEntry resolve a).href ≠ "" := by
  unfold mkLinkEntry resolveHref
  dsimp only
  by_cases hraw : (getAttr a "href").getD "" = ""
  · rw [hraw]
    cases hr : resolve "" with
    | none => rw [hr] at hempty; cases hempty
    | some r => simp only [hr]; exact hres "" r hr
  · cases hr : resolve ((getAttr a "href").getD "") with
    | none => simp only [hr]; exact hraw
    | some r => simp only [hr]; exact hres _ r hr

theorem collectContainerLinks_ok (resolve : String → Option String) (sel : String)
    (ps : List SelPart) (hps : parseCompound sel = some ps) :
    ∀ l : List Dom, collectContainerLinks resolve sel l =
      Except.ok (l.filterMap fun c => (qualAnchor sel c).map (mkLinkEntry resolve)) := by
  intro l
  induction l with
  | nil => rfl
  | cons c cs ih =>
    unfold collectContainerLinks
    rw [ih]
    cases c with
    | text str =>
      have hqd : querySelectorDesc (Dom.text str) sel = Except.ok none := by
        unfold querySelectorDesc
        rw [hps]
      have hqa : qualAnchor sel (Dom.text str) = none := by
        unfold qualAnchor
        rw [hqd]
      rw [hqd]
      simp [List.filterMap_cons, hqa]
    | elem t a kids =>
      have hqd : querySelectorDesc (Dom.elem t a kids) sel =
          Except.ok (domListMatchesIn ps kids).head? := by
        unfold querySelectorDesc
        rw [hps]
      cases hh : (domListMatchesIn ps kids).head? with
      | none =>
        rw [hh] at hqd
        have hqa : qualAnchor sel (Dom.elem t a kids) = none := by
          unfold qualAnchor
          rw [hqd]
        rw [hqd]
        simp [List.filterMap_cons, hqa]
      | some a2 =>
        rw [hh] at hqd
        have hqa : qualAnchor sel (Dom.elem t a kids) =
            if (getAttr a2 "href").getD "" != "" then some a2 else none := by
          unfold qualAnchor
          rw [hqd]
        rw [hqd]
        by_cases hhref : ((getAttr a2 "href").getD "" != "") = true
        · rw [if_pos hhref] at hqa
          simp [List.filterMap_cons, hqa, hhref]
        · rw [if_neg hhref] at hqa
          simp only [Bool.not_eq_true] at hhref
          simp [List.filterMap_cons, hqa, hhref]

/-- C9: every entry either link-harvesting strategy returns has a non-empty
href (given that successful URL resolution never yields the empty string and
that the empty href resolves successfully, as `new URL` guarantees against a
valid base); the container-scoped strategy returns exactly one entry per
container whose first link-selector match has a truthy `href` — containers
without such a match are skipped with no placeholder entry. -/
theorem harvester_entries_have_nonempty_href
    (doc : Dom) (lc ls : Descriptor) (resolve : String → Option String)
    (cs : List Dom) (ps : List SelPart)
    (hres : ∀ s r, resolve s = some r → r ≠ "")
    (hempty : (resolve "").isSome = true)
    (hcsel : (convertToSelectorApp lc.tag lc.attrs == "") = false)
    (hlsel : (convertToSelectorApp ls.tag ls.attrs == "") = false)
    (hps : parseCompound (convertToSelectorApp ls.tag ls.attrs) = some ps)
    (hq : querySelectorAll doc (convertToSelectorApp lc.tag lc.attrs) = Except.ok cs) :
    (∀ es, handleFindAllLinksPreview doc resolve = Except.ok es →
      ∀ e ∈ es, e.href ≠ "") ∧
    handleFindLinksInContainerPreview doc lc ls resolve =
      Except.ok (cs.filterMap fun c =>
        (qualAnchor (convertToSelectorApp ls.tag ls.attrs) c).map (mkLinkEntry resolve)) ∧
    ∀ e ∈ (cs.filterMap fun c =>
        (qualAnchor (convertToSelectorApp ls.tag ls.attrs) c).map (mkLinkEntry resolve)),
      e.href ≠ "" := by
  refine ⟨?_, ?_, ?_⟩
  · intro es hes e he
    unfold handleFindAllLinksPreview at hes
    cases hq2 : querySelectorAll doc "a[href]" with
    | error err => rw [hq2] at hes; cases hes
    | ok anchors =>
      rw [hq2] at hes
      dsimp only at hes
      by_cases hlen : (anchors.length == 0) = true
      · rw [if_pos hlen] at hes
        cases hes
        simp at he
      · rw [if_neg hlen] at hes
        cases hes
        obtain ⟨a, _, rfl⟩ := List.mem_map.mp he
        exact mkLinkEntry_href_ne resolve hres hempty a
  · unfold handleFindLinksInContainerPreview
    rw [if_neg (by simp [hcsel, hlsel])]
    rw [hq]
    exact collectContainerLinks_ok resolve _ ps hps cs
  · intro e he
    obtain ⟨c, _, hc⟩ := List.mem_filterMap.mp he
    cases hqa : qualAnchor (convertToSelectorApp ls.tag ls.attrs) c with
    | none => rw [hqa] at hc; cases hc
    | some a =>
      rw [hqa] at hc
      simp only [Option.map] at hc
      cases hc
      exact mkLinkEntry_href_ne resolve hres hempty a

theorem resolve0_ne_empty : ∀ s r, resolve0 s = some r → r ≠ "" := by
  intro s r h
  have h2 := Option.some.inj h
  rw [← h2]
  exact str_append_ne_empty_left "http://base/" s (by decide)

/-- C9 witness: on the sample link document, the whole-document strategy
yields only non-empty hrefs and the container strategy returns exactly one
entry for the card with an anchor, skipping the card without one. -/
theorem harvester_entries_have_nonempty_href_witness :
    (∀ es, handleFindAllLinksPreview dLinks resolve0 = Except.ok es →
      ∀ e ∈ es, e.href ≠ "") ∧
    handleFindLinksInContainerPreview dLinks ⟨"div", "class=card"⟩ ⟨"a", ""⟩ resolve0 =
      Except.ok [⟨"P", "http://base//p", true⟩] := by
  have h := harvester_entries_have_nonempty_href dLinks ⟨"div", "class=card"⟩ ⟨"a", ""⟩
    resolve0 [card1, card2] [SelPart.typeSel "a"] resolve0_ne_empty rfl rfl rfl rfl rfl
  exact ⟨h.1, h.2.1.trans (by rfl)⟩

/-! ### Synthesizer claims -/

/-- Parameter tuple on which the synthesizer raises: a complete simple-mode
live-url configuration with a multi-page prefix but an omitted suffix. -/
def pFail : GenerateBsCodeParams :=
  { projectName := "proj", scrapingMode := ScrapingMode.simple,
    container := ⟨"", ""⟩, extractors := [⟨1, "title", "h2", ""⟩],
    outputFormat := OutputFormat.print, source := Source.liveUrl,
    linkExtractionStrategy := none, linkContainer := none, linkSelector := none,
    url := none, urlPrefix := some "https://example.com/page/", urlSuffix := none,
    proxyList := none, delay := none, browser := none }

/-- C1: the totality claim fails — at the well-formed input `pFail` (live-url
source, truthy `urlPrefix`, omitted optional `urlSuffix`) the synthesizer
evaluates `urlSuffix.replace(/"/g, '\\"')` on `undefined` (codeGenerator.ts
line 684) and raises a `TypeError` instead of returning a script. -/
theorem generateBeautifulSoupCode_raises_on_missing_urlSuffix :
    generateBeautifulSoupCode pFail =
      Except.error "TypeError: Cannot read properties of undefined (reading 'replace')" :=
  rfl

/-- C6: for every configuration the claim calls incomplete — Structured with
an empty container tag, container-scoped Links with a missing link-container
tag, or Simple with a missing field tag — the synthesizer returns the fixed
guidance comment without raising, and that comment contains no
container-query code (`soup.select`). -/
theorem synthesizer_incomplete_guidance (p : GenerateBsCodeParams)
    (h : (p.scrapingMode = ScrapingMode.structured ∧ p.container.tag = "") ∨
         (p.scrapingMode = ScrapingMode.links ∧
           p.linkExtractionStrategy = some LinkExtractionStrategy.container ∧
           optTagMissing p.linkContainer = true) ∨
         (p.scrapingMode = ScrapingMode.simple ∧ headTagMissing p.extractors = true)) :
    generateBeautifulSoupCode p = Except.ok bsIncompleteStub ∧
    containsSub bsIncompleteStub "soup.select" = false := by
  have hg : bsIncomplete p = true := by
    unfold bsIncomplete
    rcases h with ⟨h1, h2⟩ | ⟨h1, h2, h3⟩ | ⟨h1, h2⟩
    · rw [h1, h2]
      rfl
    · rw [h1, h2, h3]
      rfl
    · rw [h1, h2]
      rfl
  constructor
  · unfold generateBeautifulSoupCode
    rw [if_pos hg]
  · decide

/-- Incomplete structured configuration used by the C6 witness. -/
def pC6 : GenerateBsCodeParams :=
  { projectName := "proj", scrapingMode := ScrapingMode.structured,
    container := ⟨"", ""⟩, extractors := [⟨1, "title", "h2", ""⟩],
    outputFormat := OutputFormat.csv, source := Source.localFiles,
    linkExtractionStrategy := none, linkContainer := none, linkSelector := none,
    url := none, urlPrefix := none, urlSuffix := none, proxyList := none,
    delay := none, browser := none }

/-- C6 witness: a structured configuration with an empty container tag gets
the guidance stub. -/
theorem synthesizer_incomplete_guidance_witness :
    generateBeautifulSoupCode pC6 = Except.ok bsIncompleteStub ∧
    containsSub bsIncompleteStub "soup.select" = false :=
  synthesizer_incomplete_guidance pC6 (Or.inl ⟨rfl, rfl⟩)

/-- C10: under Structured mode with a non-empty container tag and zero
extractors, the synthesizer returns the guidance stub (which contains no
container-query code), not an extraction script — the empty field list alone
triggers the incompleteness guard. -/
theorem structured_zero_extractors_stub (p : GenerateBsCodeParams)
    (hmode : p.scrapingMode = ScrapingMode.structured)
    (_hct : p.container.tag ≠ "")
    (hext : p.extractors = []) :
    generateBeautifulSoupCode p = Except.ok bsIncompleteStub ∧
    containsSub bsIncompleteStub "containers = soup.select" = false := by
  have hg : bsIncomplete p = true := by
    unfold bsIncomplete
    rw [hmode, hext]
    simp
  constructor
  · unfold generateBeautifulSoupCode
    rw [if_pos hg]
  · decide

/-- Structured configuration with a container but no fields, for the C10
witness. -/
def pC10 : GenerateBsCodeParams :=
  { projectName := "proj", scrapingMode := ScrapingMode.structured,
    container := ⟨"div", "class=item"⟩, extractors := [],
    outputFormat := OutputFormat.csv, source := Source.localFiles,
    linkExtractionStrategy := none, linkContainer := none, linkSelector := none,
    url := none, urlPrefix := none, urlSuffix := none, proxyList := none,
    delay := none, browser := none }

/-- C10 witness: a non-empty container tag with an empty extractor list still
produces the guidance stub. -/
theorem structured_zero_extractors_stub_witness :
    generateBeautifulSoupCode pC10 = Except.ok bsIncompleteStub ∧
    containsSub bsIncompleteStub "containers = soup.select" = false :=
  structured_zero_extractors_stub pC10 rfl (by decide) rfl

/-- Complete simple-mode live-url multi-page configuration with prefix `P`
and suffix `S`, used for C7. -/
def pC7x : GenerateBsCodeParams :=
  { projectName := "proj", scrapingMode := ScrapingMode.simple,
    container := ⟨"", ""⟩, extractors := [⟨1, "title", "h2", ""⟩],
    outputFormat := OutputFormat.print, source := Source.liveUrl,
    linkExtractionStrategy := none, linkContainer := none, linkSelector := none,
    url := none, urlPrefix := some "P", urlSuffix := some "S",
    proxyList := none, delay := none, browser := none }

/-- C7 counterexample: the StaticFetch live-url multi-page script does not
iterate from a configured start page for a configured page count — the
emitted URL-list block hardcodes `start_page = 1` and
`end_page = start_page + 5` (codeGenerator.ts lines 686-687; the parameter
record carries no start page or page count at all), so a pagination
configuration with start page 3 is not reflected anywhere in the block. -/
theorem static_url_range_ignores_configuration :
    (∃ a b, generateBeautifulSoupCode pC7x =
      Except.ok (a ++ staticUrlListLogic "P" "S" ++ b)) ∧
    containsSub (staticUrlListLogic "P" "S")
      "start_page = 1 \nend_page = start_page + 5 " = true ∧
    containsSub (staticUrlListLogic "P" "S") "start_page = 3" = false := by
  refine ⟨⟨_, _, rfl⟩, by decide, by decide⟩

/-- C7 (amended): for every complete StaticFetch live-url configuration with
a truthy `urlPrefix` and a present `urlSuffix`, the synthesized script
contains the URL-list block that interpolates a page counter between the
configured prefix and suffix, but over the fixed default range
`start_page = 1`, `end_page = start_page + 5` (with a comment telling the
operator to adjust), not over a configured start page and page count. -/
theorem live_url_multipage_fixed_range (p : GenerateBsCodeParams) (pre suf : String)
    (hguard : bsIncomplete p = false)
    (hsrc : p.source = Source.liveUrl)
    (hpre : p.urlPrefix = some pre)
    (hpreNe : pre ≠ "")
    (hsuf : p.urlSuffix = some suf) :
    ∃ a b, generateBeautifulSoupCode p = Except.ok (a ++ staticUrlListLogic pre suf ++ b) ∧
      containsSub (staticUrlListLogic pre suf) staticUrlRangeBlock = true := by
  have htr : truthyS p.urlPrefix = true := by
    rw [hpre]
    simp [truthyS, hpreNe]
  refine ⟨liveUrlHead p (jsTrim (p.proxyList.getD "")),
    liveUrlTail (extractionLogicFor p)
      (getOutputLogic p.scrapingMode p.outputFormat
        ((p.extractors.headD ⟨0, "", "", ""⟩).name) p.projectName), ?_, ?_⟩
  · unfold generateBeautifulSoupCode
    rw [if_neg (by simp [hguard])]
    dsimp only
    rw [hsrc]
    rw [if_pos (show (Source.liveUrl == Source.liveUrl) = true from rfl)]
    rw [if_pos htr, hsuf]
    dsimp only
    rw [hpre]
    rfl
  · unfold staticUrlListLogic
    exact containsSub_append_right _ _

/-- C7 witness: the amended statement instantiated at the concrete
configuration `pC7x`. -/
theorem live_url_multipage_fixed_range_witness :
    ∃ a b, generateBeautifulSoupCode pC7x = Except.ok (a ++ staticUrlListLogic "P" "S" ++ b) ∧
      containsSub (staticUrlListLogic "P" "S") staticUrlRangeBlock = true :=
  live_url_multipage_fixed_range pC7x "P" "S" rfl rfl rfl (by decide) rfl

end PSS
